import Mathlib

/-!
Shallow embedding of `src/compose/config_convert.go` from rocker-compose:
the translation between the declarative container specification
(`ConfigContainer`, the spec's SpecModel) and the two structures consumed
by the Docker remote API's container-creation call (`docker.Config` and
`docker.HostConfig`), plus the extraction of a `ConfigContainer` back out
of a live container's labels.

Go pointers to scalars become `Option`; Go slices become `List` (with
`Option (List _)` where the nil/non-nil distinction of the output field
matters, i.e. where the Go code conditionally assigns the field); Go
`map[string]T` becomes an association list with the map's insert/delete
semantics; Go `int64` becomes `Int` (no arithmetic is performed, so no
wraparound modelling is needed).
-/

namespace RockerCompose

/-- `ConfigCmd`: an ordered argument sequence; the projection reads its
`Parts` field. -/
structure ConfigCmd where
  Parts : List String
deriving DecidableEq

/-- `RestartPolicy` of the declarative model (name plus maximum retry
count). -/
structure ConfigRestartPolicy where
  Name : String
  MaximumRetryCount : Int
deriving DecidableEq

/-- One declared port binding: container port+protocol and host ip/port. -/
structure ConfigPort where
  Port : String
  HostIp : String
  HostPort : String
deriving DecidableEq

/-- A ulimit triple of the declarative model. -/
structure ConfigUlimit where
  Name : String
  Soft : Int
  Hard : Int
deriving DecidableEq

/-- `ConfigContainer` (the spec's SpecModel): the declarative container
configuration, with `Option` for every nil-able Go pointer field.
`Memory`/`MemorySwap` carry the resolved byte count as `Int` (the Go
`ConfigMemory` is an `int64` quantity). `Links` and `VolumesFrom` carry
the rendered compact string forms (see `renderedName`). `Labels` is an
association list standing for the Go string map (nil map = `none`). -/
structure ConfigContainer where
  Image : Option String := none
  Entrypoint : List String := []
  Cmd : Option ConfigCmd := none
  Hostname : Option String := none
  Domainname : Option String := none
  Workdir : Option String := none
  User : Option String := none
  Memory : Option Int := none
  MemorySwap : Option Int := none
  CpusetCpus : Option String := none
  CpuShares : Option Int := none
  NetworkDisabled : Option Bool := none
  Expose : Option (List String) := none
  Env : Option (List (String × String)) := none
  Volumes : Option (List String) := none
  Dns : List String := []
  AddHost : List String := []
  Restart : Option ConfigRestartPolicy := none
  Net : Option String := none
  Pid : Option String := none
  Privileged : Option Bool := none
  PublishAllPorts : Option Bool := none
  Ports : List ConfigPort := []
  Links : List String := []
  VolumesFrom : List String := []
  Ulimits : List ConfigUlimit := []
  Labels : Option (List (String × String)) := none
deriving DecidableEq

/-- `docker.RestartPolicy` of the remote API (zero value: empty name,
count 0). -/
structure DockerRestartPolicy where
  Name : String := ""
  MaximumRetryCount : Int := 0
deriving DecidableEq

/-- `docker.ULimit` of the remote API. -/
structure DockerUlimit where
  Name : String := ""
  Soft : Int := 0
  Hard : Int := 0
deriving DecidableEq

/-- `docker.Config`: the general-configuration section of the create-container
request. Defaults are the Go zero values of `&docker.Config\x7b\x7d`; `Option`
fields default to `none`, standing for a nil slice/map the code never
assigned. -/
structure DockerConfig where
  Image : String := ""
  Hostname : String := ""
  Domainname : String := ""
  User : String := ""
  WorkingDir : String := ""
  Memory : Int := 0
  MemorySwap : Int := 0
  CPUSet : String := ""
  CPUShares : Int := 0
  NetworkDisabled : Bool := false
  Cmd : Option (List String) := none
  Entrypoint : List String := []
  ExposedPorts : Option (List String) := none
  Env : Option (List String) := none
  Volumes : Option (List String) := none
  Labels : Option (List (String × String)) := none
deriving DecidableEq

/-- `docker.HostConfig`: the host/resource section of the create-container
request. Defaults are the Go zero values of `&docker.HostConfig\x7b\x7d`. -/
structure DockerHostConfig where
  DNS : List String := []
  ExtraHosts : List String := []
  RestartPolicy : DockerRestartPolicy := {}
  Memory : Int := 0
  MemorySwap : Int := 0
  NetworkMode : String := ""
  PidMode : String := ""
  CPUSet : String := ""
  Binds : Option (List String) := none
  Privileged : Bool := false
  PublishAllPorts : Bool := false
  PortBindings : Option (List (String × List (String × String))) := none
  Links : Option (List String) := none
  VolumesFrom : Option (List String) := none
  Ulimits : Option (List DockerUlimit) := none
deriving DecidableEq

/-- An untouched `&docker.Config\x7b\x7d`: every field at its Go zero value. -/
def defaultApiConfig : DockerConfig := {}

/-- An untouched `&docker.HostConfig\x7b\x7d`: every field at its Go zero
value. -/
def defaultApiHostConfig : DockerHostConfig := {}

/-- Modelled from the spec: `ConfigMemory.Int64` (defined outside the source
file at hand) resolves an optional sized quantity to an `int64` byte count;
the spec requires both projections to be total, so a nil receiver resolves to
the `int64` zero value. A present quantity already carries its byte count. -/
def memoryInt64 : Option Int → Int
  | none => 0
  | some m => m

/-- Modelled from the spec: `RestartPolicy.ToDockerApi` (defined outside the
source file at hand) converts the optional restart policy to the remote API
form; totality of the projection requires a nil receiver to yield the zero
value of `docker.RestartPolicy`. -/
def restartToDockerApi : Option ConfigRestartPolicy → DockerRestartPolicy
  | none => {}
  | some r => { Name := r.Name, MaximumRetryCount := r.MaximumRetryCount }

/-- Modelled from the spec: `ContainerName.String` / link rendering (defined
outside the source file at hand) renders a structured entry to the runtime's
compact string form; the model carries the already-rendered string, so the
rendering is the identity on it. -/
def renderedName (s : String) : String := s

/-- Insertion into a Go `map[string]struct\x7b\x7d` used as a set: duplicates
collapse, first occurrence kept. -/
def setInsert (s : List String) (x : String) : List String :=
  if x ∈ s then s else s ++ [x]

/-- Build the Go set `map[string]struct\x7b\x7d` from a list of keys, as the
exposed-ports loop does. -/
def mkStringSet (xs : List String) : List String :=
  xs.foldl setInsert []

/-- `strings.Contains(volume, ":")`: the separator-presence test classifying
a volume entry as a bind mount, stated on the character sequence (the
separator is the single character `:`). -/
def hasBindSeparator (v : String) : Bool := v.data.any (fun ch => ch == ':')

/-- `strings.HasPrefix(s, pre)`, stated on the character sequences. -/
def goHasPrefix (s pre : String) : Bool := pre.data.isPrefixOf s.data

/-- The `hostVolumes` loop of `GetApiConfig`: insert every separator-free
volume entry into a Go set. -/
def mkVolumesSet (vols : List String) : List String :=
  vols.foldl (fun acc v => if hasBindSeparator v then acc else setInsert acc v) []

/-- The `binds` loop of `GetApiHostConfig`: append every separator-bearing
volume entry, verbatim and in declaration order. -/
def mkBinds (vols : List String) : List String :=
  vols.foldl (fun acc v => if hasBindSeparator v then acc ++ [v] else acc) []

/-- `fmt.Sprintf("%s=%s", key, val)` for one environment entry. -/
def renderEnvEntry (kv : String × String) : String :=
  kv.1 ++ "=" ++ kv.2

/-- Go map update `m[key] = append(m[key], b)` on the port-bindings
association list: extend the sequence at an existing key, otherwise add the
key with a fresh singleton sequence. -/
def addPortBinding : List (String × List (String × String)) → String →
    (String × String) → List (String × List (String × String))
  | [], key, b => [(key, [b])]
  | kv :: rest, key, b =>
    if kv.1 = key then (kv.1, kv.2 ++ [b]) :: rest
    else kv :: addPortBinding rest key b

/-- The `PortBindings` loop of `GetApiHostConfig`: fold the declared port
list into a map from container-port+protocol key to the sequence of host
ip/port pairs. -/
def groupPortBindings (ports : List ConfigPort) : List (String × List (String × String)) :=
  ports.foldl (fun m p => addPortBinding m p.Port (p.HostIp, p.HostPort)) []

/-- Lookup in an association list standing for a Go string map. -/
def lookupKey {α : Type} : List (String × α) → String → Option α
  | [], _ => none
  | kv :: rest, k => if kv.1 = k then some kv.2 else lookupKey rest k

/-- The host ip/port pairs declared for one container-port+protocol key, in
declaration order. -/
def bindingsFor (ports : List ConfigPort) (key : String) : List (String × String) :=
  (ports.filter (fun p => p.Port = key)).map (fun p => (p.HostIp, p.HostPort))

/-- `ConfigContainer.GetApiConfig`: project the declarative model into the
general-configuration section. Each `if config.X != nil` guard of the Go
code becomes a match on the `Option`, with the Go zero value in the nil
branch (the field of the fresh `&docker.Config\x7b\x7d` left untouched). -/
def GetApiConfig (config : ConfigContainer) : DockerConfig :=
  { Entrypoint := config.Entrypoint
    Labels := config.Labels
    Cmd := config.Cmd.map ConfigCmd.Parts
    Image := config.Image.getD ""
    Hostname := config.Hostname.getD ""
    Domainname := config.Domainname.getD ""
    WorkingDir := config.Workdir.getD ""
    User := config.User.getD ""
    Memory :=
      match config.Memory with
      | some m => memoryInt64 (some m)
      | none => 0
    MemorySwap :=
      match config.MemorySwap with
      | some m => memoryInt64 (some m)
      | none => 0
    CPUSet := config.CpusetCpus.getD ""
    CPUShares := config.CpuShares.getD 0
    NetworkDisabled := config.NetworkDisabled.getD false
    ExposedPorts := config.Expose.map mkStringSet
    Env := config.Env.map (List.map renderEnvEntry)
    Volumes :=
      match config.Volumes with
      | none => none
      | some vols =>
        let hostVolumes := mkVolumesSet vols
        if 0 < hostVolumes.length then some hostVolumes else none }

/-- `ConfigContainer.GetApiHostConfig`: project the declarative model into
the host/resource section. `Memory`/`MemorySwap` and `RestartPolicy` are
assigned unconditionally in the Go struct literal, through the nil-safe
`Int64`/`ToDockerApi` methods; the `len(...) > 0` guards of the Go code
become emptiness tests deciding whether the `Option` field is assigned. -/
def GetApiHostConfig (config : ConfigContainer) : DockerHostConfig :=
  let binds := mkBinds (config.Volumes.getD [])
  { DNS := config.Dns
    ExtraHosts := config.AddHost
    RestartPolicy := restartToDockerApi config.Restart
    Memory := memoryInt64 config.Memory
    MemorySwap := memoryInt64 config.MemorySwap
    NetworkMode := config.Net.getD ""
    PidMode := config.Pid.getD ""
    CPUSet := config.CpusetCpus.getD ""
    Binds := if 0 < binds.length then some binds else none
    Privileged := config.Privileged.getD false
    PublishAllPorts := config.PublishAllPorts.getD false
    PortBindings :=
      if 0 < config.Ports.length then some (groupPortBindings config.Ports) else none
    Links :=
      if 0 < config.Links.length then some (config.Links.map renderedName) else none
    VolumesFrom :=
      if 0 < config.VolumesFrom.length then some (config.VolumesFrom.map renderedName) else none
    Ulimits :=
      if 0 < config.Ulimits.length then
        some (config.Ulimits.map (fun u => { Name := u.Name, Soft := u.Soft, Hard := u.Hard }))
      else none }

/-- The two failure kinds of extraction (section 7 of the spec): the reserved
label is absent, or its payload fails to deserialize (carrying the container
name and the underlying cause). -/
inductive ConfigError where
  | ConfigMissing : ConfigError
  | ConfigParseError (containerName : String) (cause : String) : ConfigError
deriving DecidableEq

/-- The reserved label key carrying the serialized configuration. -/
def reservedLabelKey : String := "rocker-compose-config"

/-- The reserved internal label prefix. -/
def reservedLabelPrefix : String := "rocker-compose-"

/-- The post-parse label cleanup of `NewContainerConfigFromDocker`: for a
non-nil label map, delete every key carrying the reserved prefix; a nil map
stays nil. -/
def stripInternalLabels (labels : Option (List (String × String))) :
    Option (List (String × String)) :=
  match labels with
  | none => none
  | some ls => some (ls.filter (fun kv => !(goHasPrefix kv.1 reservedLabelPrefix)))

/-- The slice of a `docker.Container` that extraction reads: the container's
name and its `Config.Labels` map. -/
structure DockerContainer where
  Name : String := ""
  ConfigLabels : List (String × String) := []
deriving DecidableEq

/-- `NewContainerConfigFromDocker`, parameterized by `parse` — the YAML
deserializer `yaml.Unmarshal` (external to the source file at hand): locate
the reserved label, fail with `ConfigMissing` when absent; deserialize it,
failing with `ConfigParseError` (container name plus cause) when the parse
fails; on success strip the reserved-prefix keys from the parsed label map. -/
def NewContainerConfigFromDocker (parse : String → Except String ConfigContainer)
    (apiContainer : DockerContainer) : Except ConfigError ConfigContainer :=
  match lookupKey apiContainer.ConfigLabels reservedLabelKey with
  | none => Except.error ConfigError.ConfigMissing
  | some yamlData =>
    match parse yamlData with
    | Except.error e => Except.error (ConfigError.ConfigParseError apiContainer.Name e)
    | Except.ok container =>
      Except.ok { container with Labels := stripInternalLabels container.Labels }

/-! ### Helper lemmas about the Go-map models -/

theorem mem_setInsert (acc : List String) (x v : String) :
    x ∈ setInsert acc v ↔ x ∈ acc ∨ x = v := by
  by_cases hv : v ∈ acc
  · simp only [setInsert, if_pos hv]
    exact ⟨Or.inl, fun h => h.elim id (fun hxv => hxv ▸ hv)⟩
  · simp [setInsert, if_neg hv]

theorem nodup_setInsert (acc : List String) (v : String) (h : acc.Nodup) :
    (setInsert acc v).Nodup := by
  by_cases hv : v ∈ acc
  · simpa [setInsert, if_pos hv] using h
  · simp [setInsert, if_neg hv, List.nodup_append, h, hv]

theorem mem_foldl_setInsert (l : List String) (acc : List String) (x : String) :
    x ∈ l.foldl setInsert acc ↔ x ∈ acc ∨ x ∈ l := by
  induction l generalizing acc with
  | nil => simp
  | cons v vs ih =>
    simp [List.foldl_cons, ih, mem_setInsert, or_assoc]

theorem nodup_foldl_setInsert (l : List String) (acc : List String) (h : acc.Nodup) :
    (l.foldl setInsert acc).Nodup := by
  induction l generalizing acc with
  | nil => simpa
  | cons v vs ih => exact ih _ (nodup_setInsert _ _ h)

theorem foldl_guard_setInsert (l : List String) (acc : List String) :
    l.foldl (fun acc v => if hasBindSeparator v then acc else setInsert acc v) acc =
      (l.filter (fun v => !hasBindSeparator v)).foldl setInsert acc := by
  induction l generalizing acc with
  | nil => rfl
  | cons v vs ih =>
    by_cases hv : hasBindSeparator v <;> simp [List.filter_cons, hv, ih]

theorem mem_mkVolumesSet (vols : List String) (x : String) :
    x ∈ mkVolumesSet vols ↔ x ∈ vols ∧ hasBindSeparator x = false := by
  unfold mkVolumesSet
  rw [foldl_guard_setInsert, mem_foldl_setInsert]
  simp [List.mem_filter]

theorem nodup_mkVolumesSet (vols : List String) : (mkVolumesSet vols).Nodup := by
  unfold mkVolumesSet
  rw [foldl_guard_setInsert]
  exact nodup_foldl_setInsert _ _ List.nodup_nil

theorem mkBinds_eq_filter (vols : List String) :
    mkBinds vols = vols.filter (fun v => hasBindSeparator v) := by
  unfold mkBinds
  suffices h : ∀ acc : List String,
      vols.foldl (fun acc v => if hasBindSeparator v then acc ++ [v] else acc) acc =
        acc ++ vols.filter (fun v => hasBindSeparator v) by
    simpa using h []
  induction vols with
  | nil => simp
  | cons v vs ih =>
    intro acc
    by_cases hv : hasBindSeparator v <;> simp [List.filter_cons, hv, ih]

theorem lookupKey_addPortBinding (m : List (String × List (String × String)))
    (key q : String) (b : String × String) :
    lookupKey (addPortBinding m key b) q =
      if key = q then
        match lookupKey m q with
        | some l => some (l ++ [b])
        | none => some [b]
      else lookupKey m q := by
  induction m with
  | nil =>
    by_cases h : key = q <;> simp [addPortBinding, lookupKey, h]
  | cons kv rest ih =>
    by_cases h1 : kv.1 = key
    · simp only [addPortBinding, if_pos h1, lookupKey]
      by_cases h2 : kv.1 = q
      · have hkq : key = q := by rw [← h1, h2]
        simp [h2, hkq]
      · have hkq : ¬ key = q := fun h => h2 (by rw [h1, h])
        simp [h2, hkq]
    · simp only [addPortBinding, if_neg h1, lookupKey]
      by_cases h2 : kv.1 = q
      · have hkq : ¬ key = q := fun h => h1 (by rw [h2, h])
        simp [h2, hkq]
      · simp [h2, ih]

theorem lookupKey_foldl_addPortBinding (ports : List ConfigPort)
    (m : List (String × List (String × String))) (key : String) :
    lookupKey (ports.foldl (fun m p => addPortBinding m p.Port (p.HostIp, p.HostPort)) m) key =
      match lookupKey m key with
      | some l => some (l ++ bindingsFor ports key)
      | none =>
        if bindingsFor ports key = [] then none else some (bindingsFor ports key) := by
  induction ports generalizing m with
  | nil =>
    cases hm : lookupKey m key <;> simp [bindingsFor, hm]
  | cons p ps ih =>
    simp only [List.foldl_cons]
    rw [ih, lookupKey_addPortBinding]
    by_cases hp : p.Port = key
    · have hb : bindingsFor (p :: ps) key = (p.HostIp, p.HostPort) :: bindingsFor ps key := by
        simp [bindingsFor, List.filter_cons, hp]
      rw [if_pos hp]
      cases hm : lookupKey m key <;> simp [hb]
    · have hb : bindingsFor (p :: ps) key = bindingsFor ps key := by
        simp [bindingsFor, List.filter_cons, hp]
      rw [if_neg hp, hb]

theorem lookupKey_groupPortBindings (ports : List ConfigPort) (key : String) :
    lookupKey (groupPortBindings ports) key =
      if bindingsFor ports key = [] then none else some (bindingsFor ports key) := by
  unfold groupPortBindings
  rw [lookupKey_foldl_addPortBinding]
  simp [lookupKey]

/-! ### Claim theorems -/

/-- C1: an absent optional scalar (hostname, domain name, working directory,
user, memory, memory-swap, CPU set, CPU shares, network-disabled, privileged,
publish-all-ports) is never materialized as a zero-value/empty-string
override: in each output structure that carries the field, it stays at the
untouched default of the fresh structure, and a present scalar is copied
through (memory quantities through their byte resolution). -/
theorem absent_optional_scalars_stay_default (c : ConfigContainer) :
    (c.Hostname = none → (GetApiConfig c).Hostname = defaultApiConfig.Hostname) ∧
    (∀ x, c.Hostname = some x → (GetApiConfig c).Hostname = x) ∧
    (c.Domainname = none → (GetApiConfig c).Domainname = defaultApiConfig.Domainname) ∧
    (∀ x, c.Domainname = some x → (GetApiConfig c).Domainname = x) ∧
    (c.Workdir = none → (GetApiConfig c).WorkingDir = defaultApiConfig.WorkingDir) ∧
    (∀ x, c.Workdir = some x → (GetApiConfig c).WorkingDir = x) ∧
    (c.User = none → (GetApiConfig c).User = defaultApiConfig.User) ∧
    (∀ x, c.User = some x → (GetApiConfig c).User = x) ∧
    (c.Memory = none → (GetApiConfig c).Memory = defaultApiConfig.Memory) ∧
    (∀ x, c.Memory = some x → (GetApiConfig c).Memory = memoryInt64 (some x)) ∧
    (c.MemorySwap = none → (GetApiConfig c).MemorySwap = defaultApiConfig.MemorySwap) ∧
    (∀ x, c.MemorySwap = some x → (GetApiConfig c).MemorySwap = memoryInt64 (some x)) ∧
    (c.CpusetCpus = none → (GetApiConfig c).CPUSet = defaultApiConfig.CPUSet) ∧
    (∀ x, c.CpusetCpus = some x → (GetApiConfig c).CPUSet = x) ∧
    (c.CpuShares = none → (GetApiConfig c).CPUShares = defaultApiConfig.CPUShares) ∧
    (∀ x, c.CpuShares = some x → (GetApiConfig c).CPUShares = x) ∧
    (c.NetworkDisabled = none →
      (GetApiConfig c).NetworkDisabled = defaultApiConfig.NetworkDisabled) ∧
    (∀ x, c.NetworkDisabled = some x → (GetApiConfig c).NetworkDisabled = x) ∧
    (c.Memory = none → (GetApiHostConfig c).Memory = defaultApiHostConfig.Memory) ∧
    (∀ x, c.Memory = some x → (GetApiHostConfig c).Memory = memoryInt64 (some x)) ∧
    (c.MemorySwap = none → (GetApiHostConfig c).MemorySwap = defaultApiHostConfig.MemorySwap) ∧
    (∀ x, c.MemorySwap = some x → (GetApiHostConfig c).MemorySwap = memoryInt64 (some x)) ∧
    (c.CpusetCpus = none → (GetApiHostConfig c).CPUSet = defaultApiHostConfig.CPUSet) ∧
    (∀ x, c.CpusetCpus = some x → (GetApiHostConfig c).CPUSet = x) ∧
    (c.Privileged = none → (GetApiHostConfig c).Privileged = defaultApiHostConfig.Privileged) ∧
    (∀ x, c.Privileged = some x → (GetApiHostConfig c).Privileged = x) ∧
    (c.PublishAllPorts = none →
      (GetApiHostConfig c).PublishAllPorts = defaultApiHostConfig.PublishAllPorts) ∧
    (∀ x, c.PublishAllPorts = some x → (GetApiHostConfig c).PublishAllPorts = x) := by
  repeat' apply And.intro
  all_goals intros
  all_goals
    simp_all [GetApiConfig, GetApiHostConfig, defaultApiConfig, defaultApiHostConfig,
      memoryInt64]

/-- Witness for C1 at a concrete input: the empty configuration has an
absent hostname, and the projected general config keeps the untouched
default hostname. -/
theorem absent_optional_scalars_stay_default_witness :
    ({} : ConfigContainer).Hostname = none ∧
    (GetApiConfig {}).Hostname = defaultApiConfig.Hostname :=
  ⟨rfl, (absent_optional_scalars_stay_default {}).1 rfl⟩

/-- C2: both projections are total over any well-typed configuration — they
always yield an output structure, even when memory, memory-swap, or the
restart policy is absent (the nil-safe resolution rules apply there). -/
theorem projections_total (c : ConfigContainer) :
    (∃ a, GetApiConfig c = a) ∧
    (∃ b, GetApiHostConfig c = b) ∧
    (c.Memory = none → (GetApiHostConfig c).Memory = memoryInt64 none) ∧
    (c.MemorySwap = none → (GetApiHostConfig c).MemorySwap = memoryInt64 none) ∧
    (c.Restart = none → (GetApiHostConfig c).RestartPolicy = restartToDockerApi none) := by
  refine ⟨⟨_, rfl⟩, ⟨_, rfl⟩, ?_, ?_, ?_⟩ <;> (intro h; simp [GetApiHostConfig, h])

/-- Witness for C2 at a concrete input: the empty configuration (memory,
memory-swap and restart policy all absent) still projects. -/
theorem projections_total_witness :
    ({} : ConfigContainer).Memory = none ∧
    (GetApiHostConfig {}).Memory = memoryInt64 none ∧
    (GetApiHostConfig {}).RestartPolicy = restartToDockerApi none :=
  ⟨rfl, (projections_total {}).2.2.1 rfl, (projections_total {}).2.2.2.2 rfl⟩

/-- C3: memory and memory-swap are resolved identically in the two
projections: the two sections always hold the same value; a present quantity
yields the same resolved byte count in both, and an absent one leaves both
fields at the untouched default of the fresh output structure. -/
theorem memory_resolution_consistent (c : ConfigContainer) :
    ((GetApiConfig c).Memory = (GetApiHostConfig c).Memory) ∧
    ((GetApiConfig c).MemorySwap = (GetApiHostConfig c).MemorySwap) ∧
    (∀ m, c.Memory = some m →
      (GetApiConfig c).Memory = memoryInt64 (some m) ∧
      (GetApiHostConfig c).Memory = memoryInt64 (some m)) ∧
    (c.Memory = none →
      (GetApiConfig c).Memory = defaultApiConfig.Memory ∧
      (GetApiHostConfig c).Memory = defaultApiHostConfig.Memory) ∧
    (∀ m, c.MemorySwap = some m →
      (GetApiConfig c).MemorySwap = memoryInt64 (some m) ∧
      (GetApiHostConfig c).MemorySwap = memoryInt64 (some m)) ∧
    (c.MemorySwap = none →
      (GetApiConfig c).MemorySwap = defaultApiConfig.MemorySwap ∧
      (GetApiHostConfig c).MemorySwap = defaultApiHostConfig.MemorySwap) := by
  refine ⟨?_, ?_, ?_, ?_, ?_, ?_⟩
  · cases h : c.Memory <;> simp [GetApiConfig, GetApiHostConfig, memoryInt64, h]
  · cases h : c.MemorySwap <;> simp [GetApiConfig, GetApiHostConfig, memoryInt64, h]
  · intro m h
    simp [GetApiConfig, GetApiHostConfig, h]
  · intro h
    simp [GetApiConfig, GetApiHostConfig, defaultApiConfig, defaultApiHostConfig,
      memoryInt64, h]
  · intro m h
    simp [GetApiConfig, GetApiHostConfig, h]
  · intro h
    simp [GetApiConfig, GetApiHostConfig, defaultApiConfig, defaultApiHostConfig,
      memoryInt64, h]

/-- Witness for C3 at a concrete input: with memory present (64 bytes) both
sections receive the identical resolved value; the empty configuration keeps
both untouched. -/
theorem memory_resolution_consistent_witness :
    ({ Memory := some 64 } : ConfigContainer).Memory = some 64 ∧
    ((GetApiConfig { Memory := some 64 }).Memory = memoryInt64 (some 64) ∧
      (GetApiHostConfig { Memory := some 64 }).Memory = memoryInt64 (some 64)) ∧
    ({} : ConfigContainer).Memory = none ∧
    ((GetApiConfig {}).Memory = defaultApiConfig.Memory ∧
      (GetApiHostConfig {}).Memory = defaultApiHostConfig.Memory) :=
  ⟨rfl, (memory_resolution_consistent { Memory := some 64 }).2.2.1 64 rfl,
    rfl, (memory_resolution_consistent {}).2.2.2.1 rfl⟩

/-- C4: extraction fails with `ConfigMissing` exactly when the reserved
label key is absent; when the key is present but its payload fails to
deserialize, it fails with `ConfigParseError` carrying the container's name
and the underlying cause; and a failing extraction never also returns a
configuration. -/
theorem extraction_failure_semantics (parse : String → Except String ConfigContainer)
    (d : DockerContainer) :
    (NewContainerConfigFromDocker parse d = Except.error ConfigError.ConfigMissing ↔
      lookupKey d.ConfigLabels reservedLabelKey = none) ∧
    (∀ y e, lookupKey d.ConfigLabels reservedLabelKey = some y →
      parse y = Except.error e →
      NewContainerConfigFromDocker parse d =
        Except.error (ConfigError.ConfigParseError d.Name e)) ∧
    (∀ err, NewContainerConfigFromDocker parse d = Except.error err →
      ∀ cfg, NewContainerConfigFromDocker parse d ≠ Except.ok cfg) := by
  refine ⟨?_, ?_, ?_⟩
  · cases hl : lookupKey d.ConfigLabels reservedLabelKey with
    | none => simp [NewContainerConfigFromDocker, hl]
    | some y =>
      cases hp : parse y with
      | error e => simp [NewContainerConfigFromDocker, hl, hp]
      | ok cont => simp [NewContainerConfigFromDocker, hl, hp]
  · intro y e hy hp
    simp [NewContainerConfigFromDocker, hy, hp]
  · intro err herr cfg hok
    rw [herr] at hok
    exact Except.noConfusion hok

/-- A parser that always fails, for the C4 witness. -/
def parseFailW : String → Except String ConfigContainer :=
  fun _ => Except.error "bad"

/-- A descriptor without the reserved label, for the C4 witness. -/
def dMissingW : DockerContainer :=
  { Name := "/a", ConfigLabels := [("foo", "bar")] }

/-- A descriptor whose reserved label carries an unparsable payload, for the
C4 witness. -/
def dBadW : DockerContainer :=
  { Name := "/a", ConfigLabels := [("rocker-compose-config", "oops")] }

/-- Witness for C4 at concrete inputs: a missing label yields
`ConfigMissing`; an unparsable payload yields `ConfigParseError` naming the
container and the cause. -/
theorem extraction_failure_semantics_witness :
    NewContainerConfigFromDocker parseFailW dMissingW =
      Except.error ConfigError.ConfigMissing ∧
    NewContainerConfigFromDocker parseFailW dBadW =
      Except.error (ConfigError.ConfigParseError "/a" "bad") :=
  ⟨(extraction_failure_semantics parseFailW dMissingW).1.mpr (by decide),
    (extraction_failure_semantics parseFailW dBadW).2.1 "oops" "bad" (by decide) rfl⟩

/-- C5: when the reserved label deserializes successfully, the returned
configuration carries no label key with the reserved prefix, and every label
entry without the prefix is kept unchanged (it is in the parsed label map iff
it is in the returned one). -/
theorem extraction_strips_internal_labels (parse : String → Except String ConfigContainer)
    (d : DockerContainer) (y : String) (c : ConfigContainer)
    (hy : lookupKey d.ConfigLabels reservedLabelKey = some y)
    (hp : parse y = Except.ok c) :
    NewContainerConfigFromDocker parse d =
      Except.ok { c with Labels := stripInternalLabels c.Labels } ∧
    (∀ kv, kv ∈ (stripInternalLabels c.Labels).getD [] →
      goHasPrefix kv.1 reservedLabelPrefix = false) ∧
    (∀ kv : String × String, goHasPrefix kv.1 reservedLabelPrefix = false →
      (kv ∈ c.Labels.getD [] ↔ kv ∈ (stripInternalLabels c.Labels).getD [])) := by
  refine ⟨?_, ?_, ?_⟩
  · simp [NewContainerConfigFromDocker, hy, hp]
  · intro kv hkv
    cases hc : c.Labels with
    | none => simp [stripInternalLabels, hc] at hkv
    | some ls =>
      rw [hc] at hkv
      simp only [stripInternalLabels, Option.getD_some, List.mem_filter,
        Bool.not_eq_true'] at hkv
      exact hkv.2
  · intro kv hkv
    cases hc : c.Labels with
    | none => simp [stripInternalLabels]
    | some ls =>
      simp [stripInternalLabels, List.mem_filter, hkv]

/-- A configuration whose label map holds one internal and one ordinary
entry, for the C5 witness. -/
def cOk5 : ConfigContainer :=
  { Labels := some [("rocker-compose-id", "x"), ("app", "web")] }

/-- A parser returning `cOk5`, for the C5 witness. -/
def parseOkW : String → Except String ConfigContainer :=
  fun _ => Except.ok cOk5

/-- A descriptor whose reserved label is present, for the C5 witness. -/
def dOkW : DockerContainer :=
  { Name := "/b", ConfigLabels := [("rocker-compose-config", "payload")] }

/-- Witness for C5 at a concrete input: extraction strips the
`rocker-compose-`-prefixed entry and keeps the ordinary one. -/
theorem extraction_strips_internal_labels_witness :
    lookupKey dOkW.ConfigLabels reservedLabelKey = some "payload" ∧
    NewContainerConfigFromDocker parseOkW dOkW =
      Except.ok { cOk5 with Labels := stripInternalLabels cOk5.Labels } ∧
    stripInternalLabels cOk5.Labels = some [("app", "web")] :=
  ⟨by decide,
    (extraction_strips_internal_labels parseOkW dOkW "payload" cOk5 (by decide) rfl).1,
    by decide⟩

/-- C9: serializing a configuration into the reserved label of a descriptor
and extracting it back succeeds and yields the original configuration with
the reserved-prefixed keys removed from its label mapping. The serializer and
deserializer live outside the source file at hand; the spec's serialization
contract — deserialization inverts serialization — is the hypothesis. -/
theorem serialization_round_trip (serialize : ConfigContainer → String)
    (parse : String → Except String ConfigContainer)
    (c : ConfigContainer) (d : DockerContainer)
    (hl : lookupKey d.ConfigLabels reservedLabelKey = some (serialize c))
    (hinv : parse (serialize c) = Except.ok c) :
    NewContainerConfigFromDocker parse d =
      Except.ok { c with Labels := stripInternalLabels c.Labels } := by
  simp [NewContainerConfigFromDocker, hl, hinv]

/-- A concrete configuration with one internal and one ordinary label, for
the C9 witness. -/
def cW9 : ConfigContainer :=
  { Hostname := some "h", Labels := some [("rocker-compose-x", "1"), ("team", "core")] }

/-- A serializer mapping every configuration to a fixed payload, for the C9
witness. -/
def serializeW : ConfigContainer → String := fun _ => "payload9"

/-- The deserializer inverting `serializeW` on `cW9`, for the C9 witness. -/
def parseRoundW : String → Except String ConfigContainer :=
  fun s => if s = "payload9" then Except.ok cW9 else Except.error "bad"

/-- A descriptor carrying the serialized `cW9` under the reserved key, for
the C9 witness. -/
def dW9 : DockerContainer :=
  { Name := "/c", ConfigLabels := [("rocker-compose-config", serializeW cW9)] }

/-- Witness for C9 at concrete inputs: the round trip returns `cW9` with its
internal label removed. -/
theorem serialization_round_trip_witness :
    lookupKey dW9.ConfigLabels reservedLabelKey = some (serializeW cW9) ∧
    parseRoundW (serializeW cW9) = Except.ok cW9 ∧
    NewContainerConfigFromDocker parseRoundW dW9 =
      Except.ok { cW9 with Labels := stripInternalLabels cW9.Labels } ∧
    stripInternalLabels cW9.Labels = some [("team", "core")] :=
  ⟨by decide, rfl,
    serialization_round_trip serializeW parseRoundW cW9 dW9 (by decide) rfl,
    by decide⟩

/-- C6: with a present volumes list, the general-config volumes set holds
exactly the separator-free entries (omitted when that set is empty), and the
host-config binds list is exactly the separator-bearing entries, verbatim in
declaration order (omitted when none match) — the same separator test at
both sites. -/
theorem volumes_classification (c : ConfigContainer) (vols : List String)
    (h : c.Volumes = some vols) :
    ((GetApiConfig c).Volumes =
      if 0 < (mkVolumesSet vols).length then some (mkVolumesSet vols) else none) ∧
    (∀ v, v ∈ mkVolumesSet vols ↔ v ∈ vols ∧ hasBindSeparator v = false) ∧
    ((GetApiHostConfig c).Binds =
      if 0 < (vols.filter (fun v => hasBindSeparator v)).length then
        some (vols.filter (fun v => hasBindSeparator v))
      else none) := by
  refine ⟨?_, fun v => mem_mkVolumesSet vols v, ?_⟩
  · simp [GetApiConfig, h]
  · simp [GetApiHostConfig, h, mkBinds_eq_filter]

/-- Witness for C6 at the spec's example input `["/data", "/host:/data"]`:
the volumes set is exactly `{"/data"\x7d` and the binds list exactly
`["/host:/data"]`. -/
theorem volumes_classification_witness :
    ({ Volumes := some ["/data", "/host:/data"] } : ConfigContainer).Volumes =
      some ["/data", "/host:/data"] ∧
    (GetApiConfig { Volumes := some ["/data", "/host:/data"] }).Volumes =
      some ["/data"] ∧
    (GetApiHostConfig { Volumes := some ["/data", "/host:/data"] }).Binds =
      some ["/host:/data"] ∧
    (∀ v, v ∈ mkVolumesSet ["/data", "/host:/data"] ↔
      v ∈ ["/data", "/host:/data"] ∧ hasBindSeparator v = false) :=
  ⟨rfl, by decide, by decide,
    (volumes_classification { Volumes := some ["/data", "/host:/data"] }
      ["/data", "/host:/data"] rfl).2.1⟩

/-- C7: with a present environment mapping, the general-config environment
is a sequence with exactly one `KEY=VALUE` string per mapping entry (order
irrelevant: membership is characterized entry-wise and the lengths agree);
with an absent mapping the field is omitted entirely. -/
theorem env_rendering (c : ConfigContainer) :
    (∀ env, c.Env = some env →
      (GetApiConfig c).Env = some (env.map renderEnvEntry) ∧
      (env.map renderEnvEntry).length = env.length ∧
      (∀ s, s ∈ env.map renderEnvEntry ↔ ∃ kv ∈ env, kv.1 ++ "=" ++ kv.2 = s)) ∧
    (c.Env = none → (GetApiConfig c).Env = none) := by
  constructor
  · intro env h
    refine ⟨by simp [GetApiConfig, h], by simp, ?_⟩
    intro s
    simp [List.mem_map, renderEnvEntry]
  · intro h
    simp [GetApiConfig, h]

/-- Witness for C7 at the spec's example mapping `{"A":"1","B":"2"\x7d`: the
rendered sequence is exactly `"A=1"` and `"B=2"`. -/
theorem env_rendering_witness :
    ({ Env := some [("A", "1"), ("B", "2")] } : ConfigContainer).Env =
      some [("A", "1"), ("B", "2")] ∧
    (GetApiConfig { Env := some [("A", "1"), ("B", "2")] }).Env =
      some (([("A", "1"), ("B", "2")] : List (String × String)).map renderEnvEntry) ∧
    (GetApiConfig { Env := some [("A", "1"), ("B", "2")] }).Env =
      some ["A=1", "B=2"] :=
  ⟨rfl,
    ((env_rendering { Env := some [("A", "1"), ("B", "2")] }).1
      [("A", "1"), ("B", "2")] rfl).1,
    by decide⟩

/-- C8: with a non-empty port list, the host-config port-bindings map groups
the declared entries by container-port+protocol key; the sequence at each
key is exactly the host ip/port pairs of the declarations with that key, in
declaration order, so a key declared n times has a sequence of length n
(additive grouping, never overwritten). -/
theorem port_bindings_additive_grouping (c : ConfigContainer)
    (h : 0 < c.Ports.length) :
    (GetApiHostConfig c).PortBindings = some (groupPortBindings c.Ports) ∧
    (∀ key, lookupKey (groupPortBindings c.Ports) key =
      if bindingsFor c.Ports key = [] then none else some (bindingsFor c.Ports key)) ∧
    (∀ key l, lookupKey (groupPortBindings c.Ports) key = some l →
      l.length = (c.Ports.filter (fun p => p.Port = key)).length) := by
  refine ⟨by simp [GetApiHostConfig, h], fun key => lookupKey_groupPortBindings _ _, ?_⟩
  intro key l hl
  rw [lookupKey_groupPortBindings] at hl
  by_cases hb : bindingsFor c.Ports key = []
  · rw [if_pos hb] at hl
    exact absurd hl (by simp)
  · rw [if_neg hb] at hl
    have hbl := Option.some.inj hl
    rw [← hbl]
    simp [bindingsFor]

/-- The spec's example port list: `80/tcp` declared twice, for the C8
witness. -/
def cW8 : ConfigContainer :=
  { Ports := [⟨"80/tcp", "0.0.0.0", "8080"⟩, ⟨"80/tcp", "0.0.0.0", "8081"⟩] }

/-- Witness for C8 at the spec's example input: the entry for `80/tcp` has
the two bindings, in declaration order. -/
theorem port_bindings_additive_grouping_witness :
    0 < cW8.Ports.length ∧
    (GetApiHostConfig cW8).PortBindings = some (groupPortBindings cW8.Ports) ∧
    lookupKey (groupPortBindings cW8.Ports) "80/tcp" =
      some [("0.0.0.0", "8080"), ("0.0.0.0", "8081")] :=
  ⟨by decide, (port_bindings_additive_grouping cW8 (by decide)).1, by decide⟩

/-- C10: the two volume consumption sites differ in multiplicity — the
general-config volumes set never holds duplicates (a separator-free entry
present in the list, however many times, is counted once), while the binds
list is the verbatim filter of the volume list, so a separator-bearing entry
keeps its full multiplicity. -/
theorem volumes_multiplicity (c : ConfigContainer) (vols : List String)
    (h : c.Volumes = some vols) :
    (mkVolumesSet vols).Nodup ∧
    (∀ v, hasBindSeparator v = false → v ∈ vols →
      List.count v (mkVolumesSet vols) = 1) ∧
    (mkBinds vols = vols.filter (fun v => hasBindSeparator v)) ∧
    (∀ v, hasBindSeparator v = true → List.count v (mkBinds vols) = List.count v vols) ∧
    (∀ s, (GetApiConfig c).Volumes = some s → s.Nodup) ∧
    (∀ bs, (GetApiHostConfig c).Binds = some bs →
      bs = vols.filter (fun v => hasBindSeparator v)) := by
  refine ⟨nodup_mkVolumesSet vols, ?_, mkBinds_eq_filter vols, ?_, ?_, ?_⟩
  · intro v hv hmem
    exact List.count_eq_one_of_mem (nodup_mkVolumesSet vols)
      ((mem_mkVolumesSet vols v).mpr ⟨hmem, hv⟩)
  · intro v hv
    rw [mkBinds_eq_filter, List.count_filter]
    exact hv
  · intro s hs
    simp only [GetApiConfig, h] at hs
    by_cases hl : 0 < (mkVolumesSet vols).length
    · rw [if_pos hl] at hs
      rw [← Option.some.inj hs]
      exact nodup_mkVolumesSet vols
    · rw [if_neg hl] at hs
      exact absurd hs (by simp)
  · intro bs hbs
    simp only [GetApiHostConfig, h, Option.getD_some] at hbs
    by_cases hl : 0 < (mkBinds vols).length
    · rw [if_pos hl] at hbs
      rw [← Option.some.inj hbs]
      exact mkBinds_eq_filter vols
    · rw [if_neg hl] at hbs
      exact absurd hbs (by simp)

/-- Witness for C10 at a concrete input with duplicates on both sides: the
duplicate separator-free entry `/v` collapses to one element of the volumes
set, while the duplicate bind entry `h:/c` keeps both occurrences in order. -/
theorem volumes_multiplicity_witness :
    ({ Volumes := some ["/v", "/v", "h:/c", "h:/c"] } : ConfigContainer).Volumes =
      some ["/v", "/v", "h:/c", "h:/c"] ∧
    (mkVolumesSet ["/v", "/v", "h:/c", "h:/c"]).Nodup ∧
    mkVolumesSet ["/v", "/v", "h:/c", "h:/c"] = ["/v"] ∧
    mkBinds ["/v", "/v", "h:/c", "h:/c"] = ["h:/c", "h:/c"] :=
  ⟨rfl,
    (volumes_multiplicity { Volumes := some ["/v", "/v", "h:/c", "h:/c"] }
      ["/v", "/v", "h:/c", "h:/c"] rfl).1,
    by decide, by decide⟩

end RockerCompose
